import Mathlib

/-
Verification of the epoch-composition logic of the lobster demography
repository (dadi demographic models for two populations, JPA and JTR).

The numerical engine (dadi: grid construction, density initialization,
split, diffusion integration, spectrum projection) is external to the
repository; it is modelled abstractly as a structure of operations.  Each
demographic model of src/dadi/demographic_models.py is translated as a
function parametric over that structure, returning `none` exactly when the
initial tuple unpacking of the Python code would raise a ValueError (wrong
parameter-vector length), which in CPython happens before any engine call.

Instantiating the engine with a trace collector lets us reason about the
exact sequence of engine operations a model performs.
-/

namespace JasusDemog

/-- A per-population size argument handed to the integration routine:
either a constant scalar or a function of time within the epoch, exactly
as the Python code passes either a float or a lambda. -/
inductive SizeSpec : Type
  | const : ℝ → SizeSpec
  | fn : (ℝ → ℝ) → SizeSpec

/-- One observable engine operation, for trace-based reasoning. -/
inductive Op : Type
  | grid : Nat → Op
  | phi1D : Op
  | split : Op
  | advance : ℝ → SizeSpec → SizeSpec → ℝ → ℝ → Op
  | project : Nat → Nat → Op

/-- The external numerical engine interface consumed by the models:
dadi.Numerics.default_grid, dadi.PhiManip.phi_1D, dadi.PhiManip.phi_1D_to_2D,
dadi.Integration.two_pops, dadi.Spectrum.from_phi. -/
structure Engine (G P F : Type) : Type where
  default_grid : Nat → G
  phi_1D : G → P
  phi_1D_to_2D : G → P → P
  two_pops : P → G → ℝ → SizeSpec → SizeSpec → ℝ → ℝ → P
  from_phi : P → Nat × Nat → G × G → F

/-- The growth trajectory the source builds inline in every
exponential-growth model:
nu_func = lambda t: numpy.exp(numpy.log(nu) * t/Te). -/
noncomputable def nu_func (nu Te t : ℝ) : ℝ := Real.exp (Real.log nu * t / Te)

variable {G P F : Type}

/-- SI from src/dadi/demographic_models.py: split, strict isolation. -/
def SI (E : Engine G P F) (params : List ℝ) (n : Nat × Nat) (pts : Nat) :
    Option F :=
  match params with
  | [nu1, nu2, Ts] =>
    let xx := E.default_grid pts
    let phi0 := E.phi_1D xx
    let phi1 := E.phi_1D_to_2D xx phi0
    let phi2 := E.two_pops phi1 xx Ts (.const nu1) (.const nu2) 0 0
    some (E.from_phi phi2 n (xx, xx))
  | _ => none

/-- SIex: split, strict isolation, exponential growth. -/
noncomputable def SIex (E : Engine G P F) (params : List ℝ) (n : Nat × Nat) (pts : Nat) :
    Option F :=
  match params with
  | [nu1a, nu2a, nu1, nu2, Ts, Te] =>
    let xx := E.default_grid pts
    let phi0 := E.phi_1D xx
    let phi1 := E.phi_1D_to_2D xx phi0
    let phi2 := E.two_pops phi1 xx Ts (.const nu1a) (.const nu2a) 0 0
    let phi3 := E.two_pops phi2 xx Te (.fn (nu_func nu1 Te))
      (.fn (nu_func nu2 Te)) 0 0
    some (E.from_phi phi3 n (xx, xx))
  | _ => none

/-- SIbo: split, strict isolation, bottleneck, exponential growth. -/
noncomputable def SIbo (E : Engine G P F) (params : List ℝ) (n : Nat × Nat) (pts : Nat) :
    Option F :=
  match params with
  | [nu1a, nu2a, nu1B, nu2B, nu1, nu2, Ts, TB, Te] =>
    let xx := E.default_grid pts
    let phi0 := E.phi_1D xx
    let phi1 := E.phi_1D_to_2D xx phi0
    let phi2 := E.two_pops phi1 xx Ts (.const nu1a) (.const nu2a) 0 0
    let phi3 := E.two_pops phi2 xx TB (.const nu1B) (.const nu2B) 0 0
    let phi4 := E.two_pops phi3 xx Te (.fn (nu_func nu1 Te))
      (.fn (nu_func nu2 Te)) 0 0
    some (E.from_phi phi4 n (xx, xx))
  | _ => none

/-- IM: split, continuous migration. -/
def IM (E : Engine G P F) (params : List ℝ) (n : Nat × Nat) (pts : Nat) :
    Option F :=
  match params with
  | [nu1, nu2, m12, m21, Ts] =>
    let xx := E.default_grid pts
    let phi0 := E.phi_1D xx
    let phi1 := E.phi_1D_to_2D xx phi0
    let phi2 := E.two_pops phi1 xx Ts (.const nu1) (.const nu2) m12 m21
    some (E.from_phi phi2 n (xx, xx))
  | _ => none

/-- IMex: split, continuous migration, exponential growth. -/
noncomputable def IMex (E : Engine G P F) (params : List ℝ) (n : Nat × Nat) (pts : Nat) :
    Option F :=
  match params with
  | [nu1a, nu2a, nu1, nu2, m12, m21, Ts, Te] =>
    let xx := E.default_grid pts
    let phi0 := E.phi_1D xx
    let phi1 := E.phi_1D_to_2D xx phi0
    let phi2 := E.two_pops phi1 xx Ts (.const nu1a) (.const nu2a) m12 m21
    let phi3 := E.two_pops phi2 xx Te (.fn (nu_func nu1 Te))
      (.fn (nu_func nu2 Te)) m12 m21
    some (E.from_phi phi3 n (xx, xx))
  | _ => none

/-- SC: split, strict isolation, secondary contact. -/
def SC (E : Engine G P F) (params : List ℝ) (n : Nat × Nat) (pts : Nat) :
    Option F :=
  match params with
  | [nu1, nu2, m12, m21, Ts, Tsc] =>
    let xx := E.default_grid pts
    let phi0 := E.phi_1D xx
    let phi1 := E.phi_1D_to_2D xx phi0
    let phi2 := E.two_pops phi1 xx Ts (.const nu1) (.const nu2) 0 0
    let phi3 := E.two_pops phi2 xx Tsc (.const nu1) (.const nu2) m12 m21
    some (E.from_phi phi3 n (xx, xx))
  | _ => none

/-- SCex: split, strict isolation, secondary contact, exponential growth. -/
noncomputable def SCex (E : Engine G P F) (params : List ℝ) (n : Nat × Nat) (pts : Nat) :
    Option F :=
  match params with
  | [nu1a, nu2a, nu1, nu2, m12, m21, Ts, Tsc, Te] =>
    let xx := E.default_grid pts
    let phi0 := E.phi_1D xx
    let phi1 := E.phi_1D_to_2D xx phi0
    let phi2 := E.two_pops phi1 xx Ts (.const nu1a) (.const nu2a) 0 0
    let phi3 := E.two_pops phi2 xx Tsc (.const nu1a) (.const nu2a) m12 m21
    let phi4 := E.two_pops phi3 xx Te (.fn (nu_func nu1 Te))
      (.fn (nu_func nu2 Te)) m12 m21
    some (E.from_phi phi4 n (xx, xx))
  | _ => none

/-- AM: split, ancient migration, strict isolation. -/
def AM (E : Engine G P F) (params : List ℝ) (n : Nat × Nat) (pts : Nat) :
    Option F :=
  match params with
  | [nu1, nu2, m12, m21, Tam, Ts] =>
    let xx := E.default_grid pts
    let phi0 := E.phi_1D xx
    let phi1 := E.phi_1D_to_2D xx phi0
    let phi2 := E.two_pops phi1 xx Tam (.const nu1) (.const nu2) m12 m21
    let phi3 := E.two_pops phi2 xx Ts (.const nu1) (.const nu2) 0 0
    some (E.from_phi phi3 n (xx, xx))
  | _ => none

/-- AMex: split, ancient migration, strict isolation, exponential growth
with zero migration. -/
noncomputable def AMex (E : Engine G P F) (params : List ℝ) (n : Nat × Nat) (pts : Nat) :
    Option F :=
  match params with
  | [nu1a, nu2a, nu1, nu2, m12, m21, Tam, Ts, Te] =>
    let xx := E.default_grid pts
    let phi0 := E.phi_1D xx
    let phi1 := E.phi_1D_to_2D xx phi0
    let phi2 := E.two_pops phi1 xx Tam (.const nu1a) (.const nu2a) m12 m21
    let phi3 := E.two_pops phi2 xx Ts (.const nu1a) (.const nu2a) 0 0
    let phi4 := E.two_pops phi3 xx Te (.fn (nu_func nu1 Te))
      (.fn (nu_func nu2 Te)) 0 0
    some (E.from_phi phi4 n (xx, xx))
  | _ => none

/-- PSC: split, two periods of strict isolation each followed by
secondary contact. -/
def PSC (E : Engine G P F) (params : List ℝ) (n : Nat × Nat) (pts : Nat) :
    Option F :=
  match params with
  | [nu1, nu2, m12, m21, Ts, Tsc] =>
    let xx := E.default_grid pts
    let phi0 := E.phi_1D xx
    let phi1 := E.phi_1D_to_2D xx phi0
    let phi2 := E.two_pops phi1 xx Ts (.const nu1) (.const nu2) 0 0
    let phi3 := E.two_pops phi2 xx Tsc (.const nu1) (.const nu2) m12 m21
    let phi4 := E.two_pops phi3 xx Ts (.const nu1) (.const nu2) 0 0
    let phi5 := E.two_pops phi4 xx Tsc (.const nu1) (.const nu2) m12 m21
    some (E.from_phi phi5 n (xx, xx))
  | _ => none

/-- PSCex: PSC followed by exponential growth with migration. -/
noncomputable def PSCex (E : Engine G P F) (params : List ℝ) (n : Nat × Nat) (pts : Nat) :
    Option F :=
  match params with
  | [nu1a, nu2a, nu1, nu2, m12, m21, Ts, Tsc, Te] =>
    let xx := E.default_grid pts
    let phi0 := E.phi_1D xx
    let phi1 := E.phi_1D_to_2D xx phi0
    let phi2 := E.two_pops phi1 xx Ts (.const nu1a) (.const nu2a) 0 0
    let phi3 := E.two_pops phi2 xx Tsc (.const nu1a) (.const nu2a) m12 m21
    let phi4 := E.two_pops phi3 xx Ts (.const nu1a) (.const nu2a) 0 0
    let phi5 := E.two_pops phi4 xx Tsc (.const nu1a) (.const nu2a) m12 m21
    let phi6 := E.two_pops phi5 xx Te (.fn (nu_func nu1 Te))
      (.fn (nu_func nu2 Te)) m12 m21
    some (E.from_phi phi6 n (xx, xx))
  | _ => none

/-- PAM: split, two periods of ancient migration each followed by
strict isolation. -/
def PAM (E : Engine G P F) (params : List ℝ) (n : Nat × Nat) (pts : Nat) :
    Option F :=
  match params with
  | [nu1, nu2, m12, m21, Tam, Ts] =>
    let xx := E.default_grid pts
    let phi0 := E.phi_1D xx
    let phi1 := E.phi_1D_to_2D xx phi0
    let phi2 := E.two_pops phi1 xx Tam (.const nu1) (.const nu2) m12 m21
    let phi3 := E.two_pops phi2 xx Ts (.const nu1) (.const nu2) 0 0
    let phi4 := E.two_pops phi3 xx Tam (.const nu1) (.const nu2) m12 m21
    let phi5 := E.two_pops phi4 xx Ts (.const nu1) (.const nu2) 0 0
    some (E.from_phi phi5 n (xx, xx))
  | _ => none

/-- PAMex: PAM followed by exponential growth with zero migration. -/
noncomputable def PAMex (E : Engine G P F) (params : List ℝ) (n : Nat × Nat) (pts : Nat) :
    Option F :=
  match params with
  | [nu1a, nu2a, nu1, nu2, m12, m21, Tam, Ts, Te] =>
    let xx := E.default_grid pts
    let phi0 := E.phi_1D xx
    let phi1 := E.phi_1D_to_2D xx phi0
    let phi2 := E.two_pops phi1 xx Tam (.const nu1a) (.const nu2a) m12 m21
    let phi3 := E.two_pops phi2 xx Ts (.const nu1a) (.const nu2a) 0 0
    let phi4 := E.two_pops phi3 xx Tam (.const nu1a) (.const nu2a) m12 m21
    let phi5 := E.two_pops phi4 xx Ts (.const nu1a) (.const nu2a) 0 0
    let phi6 := E.two_pops phi5 xx Te (.fn (nu_func nu1 Te))
      (.fn (nu_func nu2 Te)) 0 0
    some (E.from_phi phi6 n (xx, xx))
  | _ => none

/-- An engine instantiation that records the sequence of operations
performed, threading the accumulated trace through the density values. -/
def TraceEngine : Engine (List Op) (List Op) (List Op) where
  default_grid := fun pts => [Op.grid pts]
  phi_1D := fun g => g ++ [Op.phi1D]
  phi_1D_to_2D := fun _ p => p ++ [Op.split]
  two_pops := fun p _ T s1 s2 m12 m21 => p ++ [Op.advance T s1 s2 m12 m21]
  from_phi := fun p n _ => p ++ [Op.project n.1 n.2]

/-- The grid point settings of src/dadi/JPA_JTR_PAMex_folded.py, passed
to make_extrap_log_func evaluation at both call sites (optimize_log and
the final model evaluation). -/
def pts_l : List Nat := [60, 50]

/-- The declared free-parameter names of the PAMex fit in
src/dadi/JPA_JTR_PAMex_folded.py. -/
def params_names : List String :=
  ["nu1a", "nu2a", "nu1", "nu2", "m12", "m21", "Tam", "Ts", "Te"]

/-- AIC = 2*len(params) - 2*ll_opt, from src/dadi/JPA_JTR_PAMex_folded.py. -/
def AIC (ll : ℝ) : ℝ := 2 * (params_names.length : ℝ) - 2 * ll

/-- One epoch of a demographic model: duration, per-population size
trajectories, and the pair of migration rates. -/
structure Epoch : Type where
  duration : ℝ
  size1 : SizeSpec
  size2 : SizeSpec
  m12 : ℝ
  m21 : ℝ

/-- The epoch-composition algorithm of the spec: build the grid, the
ancestral density, the split, then advance through each epoch in order,
and finally project to a spectrum. -/
def runEpochs (E : Engine G P F) (eps : List Epoch) (n : Nat × Nat)
    (pts : Nat) : F :=
  let xx := E.default_grid pts
  let phi0 := E.phi_1D xx
  let phi1 := E.phi_1D_to_2D xx phi0
  let phi2 := eps.foldl
    (fun p e => E.two_pops p xx e.duration e.size1 e.size2 e.m12 e.m21) phi1
  E.from_phi phi2 n (xx, xx)

/-- The pure epoch sequence the SI parameter vector determines. -/
def SI_epochs (nu1 nu2 Ts : ℝ) : List Epoch :=
  [⟨Ts, .const nu1, .const nu2, 0, 0⟩]

/-- The pure epoch sequence the SIex parameter vector determines. -/
noncomputable def SIex_epochs (nu1a nu2a nu1 nu2 Ts Te : ℝ) : List Epoch :=
  [⟨Ts, .const nu1a, .const nu2a, 0, 0⟩,
   ⟨Te, .fn (nu_func nu1 Te), .fn (nu_func nu2 Te), 0, 0⟩]

/-- The pure epoch sequence the SIbo parameter vector determines. -/
noncomputable def SIbo_epochs (nu1a nu2a nu1B nu2B nu1 nu2 Ts TB Te : ℝ) :
    List Epoch :=
  [⟨Ts, .const nu1a, .const nu2a, 0, 0⟩,
   ⟨TB, .const nu1B, .const nu2B, 0, 0⟩,
   ⟨Te, .fn (nu_func nu1 Te), .fn (nu_func nu2 Te), 0, 0⟩]

/-- The pure epoch sequence the IM parameter vector determines. -/
def IM_epochs (nu1 nu2 m12 m21 Ts : ℝ) : List Epoch :=
  [⟨Ts, .const nu1, .const nu2, m12, m21⟩]

/-- The pure epoch sequence the IMex parameter vector determines. -/
noncomputable def IMex_epochs (nu1a nu2a nu1 nu2 m12 m21 Ts Te : ℝ) :
    List Epoch :=
  [⟨Ts, .const nu1a, .const nu2a, m12, m21⟩,
   ⟨Te, .fn (nu_func nu1 Te), .fn (nu_func nu2 Te), m12, m21⟩]

/-- The pure epoch sequence the SC parameter vector determines. -/
def SC_epochs (nu1 nu2 m12 m21 Ts Tsc : ℝ) : List Epoch :=
  [⟨Ts, .const nu1, .const nu2, 0, 0⟩,
   ⟨Tsc, .const nu1, .const nu2, m12, m21⟩]

/-- The pure epoch sequence the SCex parameter vector determines. -/
noncomputable def SCex_epochs (nu1a nu2a nu1 nu2 m12 m21 Ts Tsc Te : ℝ) :
    List Epoch :=
  [⟨Ts, .const nu1a, .const nu2a, 0, 0⟩,
   ⟨Tsc, .const nu1a, .const nu2a, m12, m21⟩,
   ⟨Te, .fn (nu_func nu1 Te), .fn (nu_func nu2 Te), m12, m21⟩]

/-- The pure epoch sequence the AM parameter vector determines. -/
def AM_epochs (nu1 nu2 m12 m21 Tam Ts : ℝ) : List Epoch :=
  [⟨Tam, .const nu1, .const nu2, m12, m21⟩,
   ⟨Ts, .const nu1, .const nu2, 0, 0⟩]

/-- The pure epoch sequence the AMex parameter vector determines. -/
noncomputable def AMex_epochs (nu1a nu2a nu1 nu2 m12 m21 Tam Ts Te : ℝ) :
    List Epoch :=
  [⟨Tam, .const nu1a, .const nu2a, m12, m21⟩,
   ⟨Ts, .const nu1a, .const nu2a, 0, 0⟩,
   ⟨Te, .fn (nu_func nu1 Te), .fn (nu_func nu2 Te), 0, 0⟩]

/-- The pure epoch sequence the PSC parameter vector determines. -/
def PSC_epochs (nu1 nu2 m12 m21 Ts Tsc : ℝ) : List Epoch :=
  [⟨Ts, .const nu1, .const nu2, 0, 0⟩,
   ⟨Tsc, .const nu1, .const nu2, m12, m21⟩,
   ⟨Ts, .const nu1, .const nu2, 0, 0⟩,
   ⟨Tsc, .const nu1, .const nu2, m12, m21⟩]

/-- The pure epoch sequence the PSCex parameter vector determines. -/
noncomputable def PSCex_epochs (nu1a nu2a nu1 nu2 m12 m21 Ts Tsc Te : ℝ) :
    List Epoch :=
  [⟨Ts, .const nu1a, .const nu2a, 0, 0⟩,
   ⟨Tsc, .const nu1a, .const nu2a, m12, m21⟩,
   ⟨Ts, .const nu1a, .const nu2a, 0, 0⟩,
   ⟨Tsc, .const nu1a, .const nu2a, m12, m21⟩,
   ⟨Te, .fn (nu_func nu1 Te), .fn (nu_func nu2 Te), m12, m21⟩]

/-- The pure epoch sequence the PAM parameter vector determines. -/
def PAM_epochs (nu1 nu2 m12 m21 Tam Ts : ℝ) : List Epoch :=
  [⟨Tam, .const nu1, .const nu2, m12, m21⟩,
   ⟨Ts, .const nu1, .const nu2, 0, 0⟩,
   ⟨Tam, .const nu1, .const nu2, m12, m21⟩,
   ⟨Ts, .const nu1, .const nu2, 0, 0⟩]

/-- The pure epoch sequence the PAMex parameter vector determines. -/
noncomputable def PAMex_epochs (nu1a nu2a nu1 nu2 m12 m21 Tam Ts Te : ℝ) :
    List Epoch :=
  [⟨Tam, .const nu1a, .const nu2a, m12, m21⟩,
   ⟨Ts, .const nu1a, .const nu2a, 0, 0⟩,
   ⟨Tam, .const nu1a, .const nu2a, m12, m21⟩,
   ⟨Ts, .const nu1a, .const nu2a, 0, 0⟩,
   ⟨Te, .fn (nu_func nu1 Te), .fn (nu_func nu2 Te), 0, 0⟩]

/-- Claim C1, counterexample: with nu1a = 2 (size at the start of the
growth epoch), nu1 = 3 (end size) and Te = 1, the growth trajectory the
SIex code hands to the engine is nu_func 3 1, whose value at time 0 is 1,
not the start size 2 — so size(0) == start fails on the code. -/
theorem growth_start_not_nu1a_cex :
    SIex TraceEngine [2, 2, 3, 3, 1, 1] (5, 5) 10 =
      some [Op.grid 10, Op.phi1D, Op.split,
        Op.advance 1 (.const 2) (.const 2) 0 0,
        Op.advance 1 (.fn (nu_func 3 1)) (.fn (nu_func 3 1)) 0 0,
        Op.project 5 5] ∧
    nu_func 3 1 0 = 1 ∧ nu_func 3 1 0 ≠ 2 := by
  refine ⟨rfl, by norm_num [nu_func], by norm_num [nu_func]⟩

/-- Claim C1, amended: the per-population growth trajectory used by the
exponential-growth models is the exponential interpolation from 1 (the
ancestral reference size) to the final size nu, namely
nu_func nu Te t = nu ^ (t / Te); it satisfies size(0) = 1 and
size(Te) = nu, and is strictly positive, for positive nu and nonzero Te.
The size at the start of the epoch (for example nu1a) is ignored. -/
theorem growth_interpolates_from_one (nu Te t : ℝ) (hnu : 0 < nu)
    (hTe : Te ≠ 0) :
    nu_func nu Te 0 = 1 ∧ nu_func nu Te Te = nu ∧
    nu_func nu Te t = nu ^ (t / Te) ∧ 0 < nu_func nu Te t := by
  refine ⟨by simp [nu_func], ?_, ?_, Real.exp_pos _⟩
  · simp [nu_func, mul_div_assoc, div_self hTe, Real.exp_log hnu]
  · simp only [nu_func]
    rw [Real.rpow_def_of_pos hnu, mul_div_assoc]

/-- Witness for growth_interpolates_from_one at nu = 3, Te = 1, t = 2. -/
theorem growth_interpolates_from_one_witness :
    0 < (3 : ℝ) ∧ (1 : ℝ) ≠ 0 ∧
      (nu_func 3 1 0 = 1 ∧ nu_func 3 1 1 = 3 ∧
       nu_func 3 1 2 = (3 : ℝ) ^ ((2 : ℝ) / 1) ∧ 0 < nu_func 3 1 2) :=
  ⟨by norm_num, by norm_num,
    growth_interpolates_from_one 3 1 2 (by norm_num) (by norm_num)⟩

/-- Claim C2, counterexample: the grid-resolution list of the fitting
script is pts_l = [60, 50], which is not increasing. -/
theorem pts_l_not_increasing_cex : ¬ List.Chain' (· < ·) pts_l := by
  norm_num [pts_l, List.chain'_cons, List.chain'_singleton]

/-- Claim C2, amended: pts_l is an ordered list of exactly 2 grid sizes,
in strictly decreasing order. -/
theorem pts_l_two_decreasing :
    pts_l = [60, 50] ∧ pts_l.length = 2 ∧ List.Chain' (· > ·) pts_l :=
  ⟨rfl, rfl, by norm_num [pts_l, List.chain'_cons, List.chain'_singleton]⟩

/-- Claim C3: evaluating IM with both migration rates exactly 0 performs
the very same engine operations as SI with the same sizes and duration, so
for every engine it produces the identical spectrum. -/
theorem IM_zero_migration_eq_SI (E : Engine G P F)
    (nu1 nu2 Ts : ℝ) (n : Nat × Nat) (pts : Nat) :
    IM E [nu1, nu2, 0, 0, Ts] n pts = SI E [nu1, nu2, Ts] n pts := rfl

/-- Claim C5: SI performs exactly the grid construction, the ancestral
density, the split, one advance of duration Ts with constant sizes
nu1, nu2 and zero migration, and the projection — nothing else. -/
theorem SI_trace_exact (nu1 nu2 Ts : ℝ) (n1 n2 pts : Nat) :
    SI TraceEngine [nu1, nu2, Ts] (n1, n2) pts =
      some [Op.grid pts, Op.phi1D, Op.split,
        Op.advance Ts (.const nu1) (.const nu2) 0 0,
        Op.project n1 n2] := rfl

/-- Claim C4: PAM performs exactly four sequential advance calls, in the
order (Tam, migration), (Ts, zero), (Tam, migration), (Ts, zero), and PSC
exactly four in the order (Ts, zero), (Tsc, migration), (Ts, zero),
(Tsc, migration); each call consumes the previous output density (the
trace engine threads the accumulated trace through the density value). -/
theorem periodic_models_four_advances (nu1 nu2 m12 m21 Tam Ts Tsc : ℝ)
    (n1 n2 pts : Nat) :
    (PAM TraceEngine [nu1, nu2, m12, m21, Tam, Ts] (n1, n2) pts =
      some [Op.grid pts, Op.phi1D, Op.split,
        Op.advance Tam (.const nu1) (.const nu2) m12 m21,
        Op.advance Ts (.const nu1) (.const nu2) 0 0,
        Op.advance Tam (.const nu1) (.const nu2) m12 m21,
        Op.advance Ts (.const nu1) (.const nu2) 0 0,
        Op.project n1 n2]) ∧
    (PSC TraceEngine [nu1, nu2, m12, m21, Ts, Tsc] (n1, n2) pts =
      some [Op.grid pts, Op.phi1D, Op.split,
        Op.advance Ts (.const nu1) (.const nu2) 0 0,
        Op.advance Tsc (.const nu1) (.const nu2) m12 m21,
        Op.advance Ts (.const nu1) (.const nu2) 0 0,
        Op.advance Tsc (.const nu1) (.const nu2) m12 m21,
        Op.project n1 n2]) := ⟨rfl, rfl⟩

/-- Claim C6: the fitting script reports AIC = 2*k - 2*logLikelihood with
k = 9, the length of its declared parameter-name tuple for PAMex, and
theta is not among the counted names. -/
theorem AIC_formula_k9 :
    params_names.length = 9 ∧ "theta" ∉ params_names ∧
    ∀ ll : ℝ, AIC ll = 2 * 9 - 2 * ll := by
  refine ⟨rfl, by decide, fun ll => ?_⟩
  norm_num [AIC, params_names]

/-- Claim C7: calling any model with a parameter vector whose length is
not the declared arity returns none (the embedding of the ValueError the
tuple unpacking raises, the first statement of each model): no engine
operation is performed, for an arbitrary engine. -/
theorem wrong_arity_returns_none (E : Engine G P F)
    (ps : List ℝ) (n : Nat × Nat) (pts : Nat) :
    (ps.length ≠ 3 → SI E ps n pts = none) ∧
    (ps.length ≠ 5 → IM E ps n pts = none) ∧
    (ps.length ≠ 6 → SC E ps n pts = none) ∧
    (ps.length ≠ 6 → AM E ps n pts = none) ∧
    (ps.length ≠ 6 → PSC E ps n pts = none) ∧
    (ps.length ≠ 6 → PAM E ps n pts = none) ∧
    (ps.length ≠ 6 → SIex E ps n pts = none) ∧
    (ps.length ≠ 8 → IMex E ps n pts = none) ∧
    (ps.length ≠ 9 → SIbo E ps n pts = none) ∧
    (ps.length ≠ 9 → SCex E ps n pts = none) ∧
    (ps.length ≠ 9 → AMex E ps n pts = none) ∧
    (ps.length ≠ 9 → PSCex E ps n pts = none) ∧
    (ps.length ≠ 9 → PAMex E ps n pts = none) := by
  refine ⟨?_, ?_, ?_, ?_, ?_, ?_, ?_, ?_, ?_, ?_, ?_, ?_, ?_⟩ <;> intro h <;>
    rcases ps with _ | ⟨a1, _ | ⟨a2, _ | ⟨a3, _ | ⟨a4, _ | ⟨a5, _ | ⟨a6,
      _ | ⟨a7, _ | ⟨a8, _ | ⟨a9, _ | ⟨a10, tl⟩⟩⟩⟩⟩⟩⟩⟩⟩⟩ <;>
    first | rfl | simp at h

/-- Witness for wrong_arity_returns_none: the empty parameter vector makes
every model return none. -/
theorem wrong_arity_returns_none_witness :
    SI TraceEngine ([] : List ℝ) (5, 5) 10 = none ∧
    IM TraceEngine ([] : List ℝ) (5, 5) 10 = none ∧
    SC TraceEngine ([] : List ℝ) (5, 5) 10 = none ∧
    AM TraceEngine ([] : List ℝ) (5, 5) 10 = none ∧
    PSC TraceEngine ([] : List ℝ) (5, 5) 10 = none ∧
    PAM TraceEngine ([] : List ℝ) (5, 5) 10 = none ∧
    SIex TraceEngine ([] : List ℝ) (5, 5) 10 = none ∧
    IMex TraceEngine ([] : List ℝ) (5, 5) 10 = none ∧
    SIbo TraceEngine ([] : List ℝ) (5, 5) 10 = none ∧
    SCex TraceEngine ([] : List ℝ) (5, 5) 10 = none ∧
    AMex TraceEngine ([] : List ℝ) (5, 5) 10 = none ∧
    PSCex TraceEngine ([] : List ℝ) (5, 5) 10 = none ∧
    PAMex TraceEngine ([] : List ℝ) (5, 5) 10 = none := by
  obtain ⟨h1, h2, h3, h4, h5, h6, h7, h8, h9, h10, h11, h12, h13⟩ :=
    wrong_arity_returns_none TraceEngine ([] : List ℝ) (5, 5) 10
  exact ⟨h1 (by simp), h2 (by simp), h3 (by simp), h4 (by simp),
    h5 (by simp), h6 (by simp), h7 (by simp), h8 (by simp), h9 (by simp),
    h10 (by simp), h11 (by simp), h12 (by simp), h13 (by simp)⟩

/-- Claim C8: every model function is a pure, total function of its
inputs: the spectrum it returns is exactly runEpochs applied to the epoch
sequence that its parameter vector determines through a pure mapping
(shown for all 13 models over an arbitrary engine), so two evaluations
with identical parameter vector, sample sizes and grid resolution yield
the identical result, and nothing is mutated. -/
theorem models_factor_through_epochs (E : Engine G P F)
    (nu1a nu2a nu1B nu2B nu1 nu2 m12 m21 Tam Ts TB Tsc Te : ℝ)
    (n : Nat × Nat) (pts : Nat) :
    (SI E [nu1, nu2, Ts] n pts =
      some (runEpochs E (SI_epochs nu1 nu2 Ts) n pts)) ∧
    (SIex E [nu1a, nu2a, nu1, nu2, Ts, Te] n pts =
      some (runEpochs E (SIex_epochs nu1a nu2a nu1 nu2 Ts Te) n pts)) ∧
    (SIbo E [nu1a, nu2a, nu1B, nu2B, nu1, nu2, Ts, TB, Te] n pts =
      some (runEpochs E (SIbo_epochs nu1a nu2a nu1B nu2B nu1 nu2 Ts TB Te)
        n pts)) ∧
    (IM E [nu1, nu2, m12, m21, Ts] n pts =
      some (runEpochs E (IM_epochs nu1 nu2 m12 m21 Ts) n pts)) ∧
    (IMex E [nu1a, nu2a, nu1, nu2, m12, m21, Ts, Te] n pts =
      some (runEpochs E (IMex_epochs nu1a nu2a nu1 nu2 m12 m21 Ts Te)
        n pts)) ∧
    (SC E [nu1, nu2, m12, m21, Ts, Tsc] n pts =
      some (runEpochs E (SC_epochs nu1 nu2 m12 m21 Ts Tsc) n pts)) ∧
    (SCex E [nu1a, nu2a, nu1, nu2, m12, m21, Ts, Tsc, Te] n pts =
      some (runEpochs E (SCex_epochs nu1a nu2a nu1 nu2 m12 m21 Ts Tsc Te)
        n pts)) ∧
    (AM E [nu1, nu2, m12, m21, Tam, Ts] n pts =
      some (runEpochs E (AM_epochs nu1 nu2 m12 m21 Tam Ts) n pts)) ∧
    (AMex E [nu1a, nu2a, nu1, nu2, m12, m21, Tam, Ts, Te] n pts =
      some (runEpochs E (AMex_epochs nu1a nu2a nu1 nu2 m12 m21 Tam Ts Te)
        n pts)) ∧
    (PSC E [nu1, nu2, m12, m21, Ts, Tsc] n pts =
      some (runEpochs E (PSC_epochs nu1 nu2 m12 m21 Ts Tsc) n pts)) ∧
    (PSCex E [nu1a, nu2a, nu1, nu2, m12, m21, Ts, Tsc, Te] n pts =
      some (runEpochs E (PSCex_epochs nu1a nu2a nu1 nu2 m12 m21 Ts Tsc Te)
        n pts)) ∧
    (PAM E [nu1, nu2, m12, m21, Tam, Ts] n pts =
      some (runEpochs E (PAM_epochs nu1 nu2 m12 m21 Tam Ts) n pts)) ∧
    (PAMex E [nu1a, nu2a, nu1, nu2, m12, m21, Tam, Ts, Te] n pts =
      some (runEpochs E (PAMex_epochs nu1a nu2a nu1 nu2 m12 m21 Tam Ts Te)
        n pts)) :=
  ⟨rfl, rfl, rfl, rfl, rfl, rfl, rfl, rfl, rfl, rfl, rfl, rfl, rfl⟩

/-- Claim C9: in every growth-variant model the trajectory handed to the
growth epoch is nu_func nu1 Te (resp. nu_func nu2 Te), built from the
final size and Te only — the start sizes nu1a, nu2a, nu1B, nu2B do not
appear in it; its value at t = 0 is exactly 1 and at t = Te exactly nu1
(resp. nu2), so whenever nu1a differs from 1 the size trajectory jumps
discontinuously at the start of the growth epoch. -/
theorem growth_epoch_ignores_start_size
    (nu1a nu2a nu1B nu2B nu1 nu2 m12 m21 Tam Ts TB Tsc Te : ℝ)
    (n1 n2 pts : Nat) (h1 : 0 < nu1) (h2 : 0 < nu2) (hTe : Te ≠ 0)
    (ha : nu1a ≠ 1) :
    (SIex TraceEngine [nu1a, nu2a, nu1, nu2, Ts, Te] (n1, n2) pts =
      some [Op.grid pts, Op.phi1D, Op.split,
        Op.advance Ts (.const nu1a) (.const nu2a) 0 0,
        Op.advance Te (.fn (nu_func nu1 Te)) (.fn (nu_func nu2 Te)) 0 0,
        Op.project n1 n2]) ∧
    (SIbo TraceEngine [nu1a, nu2a, nu1B, nu2B, nu1, nu2, Ts, TB, Te]
        (n1, n2) pts =
      some [Op.grid pts, Op.phi1D, Op.split,
        Op.advance Ts (.const nu1a) (.const nu2a) 0 0,
        Op.advance TB (.const nu1B) (.const nu2B) 0 0,
        Op.advance Te (.fn (nu_func nu1 Te)) (.fn (nu_func nu2 Te)) 0 0,
        Op.project n1 n2]) ∧
    (IMex TraceEngine [nu1a, nu2a, nu1, nu2, m12, m21, Ts, Te]
        (n1, n2) pts =
      some [Op.grid pts, Op.phi1D, Op.split,
        Op.advance Ts (.const nu1a) (.const nu2a) m12 m21,
        Op.advance Te (.fn (nu_func nu1 Te)) (.fn (nu_func nu2 Te))
          m12 m21,
        Op.project n1 n2]) ∧
    (SCex TraceEngine [nu1a, nu2a, nu1, nu2, m12, m21, Ts, Tsc, Te]
        (n1, n2) pts =
      some [Op.grid pts, Op.phi1D, Op.split,
        Op.advance Ts (.const nu1a) (.const nu2a) 0 0,
        Op.advance Tsc (.const nu1a) (.const nu2a) m12 m21,
        Op.advance Te (.fn (nu_func nu1 Te)) (.fn (nu_func nu2 Te))
          m12 m21,
        Op.project n1 n2]) ∧
    (AMex TraceEngine [nu1a, nu2a, nu1, nu2, m12, m21, Tam, Ts, Te]
        (n1, n2) pts =
      some [Op.grid pts, Op.phi1D, Op.split,
        Op.advance Tam (.const nu1a) (.const nu2a) m12 m21,
        Op.advance Ts (.const nu1a) (.const nu2a) 0 0,
        Op.advance Te (.fn (nu_func nu1 Te)) (.fn (nu_func nu2 Te)) 0 0,
        Op.project n1 n2]) ∧
    (PSCex TraceEngine [nu1a, nu2a, nu1, nu2, m12, m21, Ts, Tsc, Te]
        (n1, n2) pts =
      some [Op.grid pts, Op.phi1D, Op.split,
        Op.advance Ts (.const nu1a) (.const nu2a) 0 0,
        Op.advance Tsc (.const nu1a) (.const nu2a) m12 m21,
        Op.advance Ts (.const nu1a) (.const nu2a) 0 0,
        Op.advance Tsc (.const nu1a) (.const nu2a) m12 m21,
        Op.advance Te (.fn (nu_func nu1 Te)) (.fn (nu_func nu2 Te))
          m12 m21,
        Op.project n1 n2]) ∧
    (PAMex TraceEngine [nu1a, nu2a, nu1, nu2, m12, m21, Tam, Ts, Te]
        (n1, n2) pts =
      some [Op.grid pts, Op.phi1D, Op.split,
        Op.advance Tam (.const nu1a) (.const nu2a) m12 m21,
        Op.advance Ts (.const nu1a) (.const nu2a) 0 0,
        Op.advance Tam (.const nu1a) (.const nu2a) m12 m21,
        Op.advance Ts (.const nu1a) (.const nu2a) 0 0,
        Op.advance Te (.fn (nu_func nu1 Te)) (.fn (nu_func nu2 Te)) 0 0,
        Op.project n1 n2]) ∧
    nu_func nu1 Te 0 = 1 ∧ nu_func nu2 Te 0 = 1 ∧
    nu_func nu1 Te Te = nu1 ∧ nu_func nu2 Te Te = nu2 ∧
    nu_func nu1 Te 0 ≠ nu1a := by
  refine ⟨rfl, rfl, rfl, rfl, rfl, rfl, rfl,
    by simp [nu_func], by simp [nu_func], ?_, ?_, ?_⟩
  · simp [nu_func, mul_div_assoc, div_self hTe, Real.exp_log h1]
  · simp [nu_func, mul_div_assoc, div_self hTe, Real.exp_log h2]
  · simpa [nu_func] using Ne.symm ha

/-- Witness for growth_epoch_ignores_start_size at nu1a = 2, nu1 = 3,
nu2 = 3, Te = 1. -/
theorem growth_epoch_ignores_start_size_witness :
    0 < (3 : ℝ) ∧ (1 : ℝ) ≠ 0 ∧ (2 : ℝ) ≠ 1 ∧ nu_func 3 1 0 ≠ 2 := by
  obtain ⟨-, -, -, -, -, -, -, -, -, -, -, hlast⟩ :=
    growth_epoch_ignores_start_size 2 2 1 1 3 3 0 0 1 1 1 1 1 5 5 10
      (by norm_num) (by norm_num) (by norm_num) (by norm_num)
  exact ⟨by norm_num, by norm_num, by norm_num, hlast⟩

/-- Claim C10: the final growth epoch is integrated with both migration
rates exactly 0 in AMex and PAMex, and with the model migration rates
m12, m21 in IMex, SCex and PSCex, for every parameter vector. -/
theorem growth_epoch_migration_rates
    (nu1a nu2a nu1 nu2 m12 m21 Tam Ts Tsc Te : ℝ) (n1 n2 pts : Nat) :
    (AMex TraceEngine [nu1a, nu2a, nu1, nu2, m12, m21, Tam, Ts, Te]
        (n1, n2) pts =
      some [Op.grid pts, Op.phi1D, Op.split,
        Op.advance Tam (.const nu1a) (.const nu2a) m12 m21,
        Op.advance Ts (.const nu1a) (.const nu2a) 0 0,
        Op.advance Te (.fn (nu_func nu1 Te)) (.fn (nu_func nu2 Te)) 0 0,
        Op.project n1 n2]) ∧
    (PAMex TraceEngine [nu1a, nu2a, nu1, nu2, m12, m21, Tam, Ts, Te]
        (n1, n2) pts =
      some [Op.grid pts, Op.phi1D, Op.split,
        Op.advance Tam (.const nu1a) (.const nu2a) m12 m21,
        Op.advance Ts (.const nu1a) (.const nu2a) 0 0,
        Op.advance Tam (.const nu1a) (.const nu2a) m12 m21,
        Op.advance Ts (.const nu1a) (.const nu2a) 0 0,
        Op.advance Te (.fn (nu_func nu1 Te)) (.fn (nu_func nu2 Te)) 0 0,
        Op.project n1 n2]) ∧
    (IMex TraceEngine [nu1a, nu2a, nu1, nu2, m12, m21, Ts, Te]
        (n1, n2) pts =
      some [Op.grid pts, Op.phi1D, Op.split,
        Op.advance Ts (.const nu1a) (.const nu2a) m12 m21,
        Op.advance Te (.fn (nu_func nu1 Te)) (.fn (nu_func nu2 Te))
          m12 m21,
        Op.project n1 n2]) ∧
    (SCex TraceEngine [nu1a, nu2a, nu1, nu2, m12, m21, Ts, Tsc, Te]
        (n1, n2) pts =
      some [Op.grid pts, Op.phi1D, Op.split,
        Op.advance Ts (.const nu1a) (.const nu2a) 0 0,
        Op.advance Tsc (.const nu1a) (.const nu2a) m12 m21,
        Op.advance Te (.fn (nu_func nu1 Te)) (.fn (nu_func nu2 Te))
          m12 m21,
        Op.project n1 n2]) ∧
    (PSCex TraceEngine [nu1a, nu2a, nu1, nu2, m12, m21, Ts, Tsc, Te]
        (n1, n2) pts =
      some [Op.grid pts, Op.phi1D, Op.split,
        Op.advance Ts (.const nu1a) (.const nu2a) 0 0,
        Op.advance Tsc (.const nu1a) (.const nu2a) m12 m21,
        Op.advance Ts (.const nu1a) (.const nu2a) 0 0,
        Op.advance Tsc (.const nu1a) (.const nu2a) m12 m21,
        Op.advance Te (.fn (nu_func nu1 Te)) (.fn (nu_func nu2 Te))
          m12 m21,
        Op.project n1 n2]) := ⟨rfl, rfl, rfl, rfl, rfl⟩

end JasusDemog
